import Mathlib

/-!
Shallow embedding of the `mull` chunk-reading library
(`src/lib/stream.py`, `src/lib/chunk/base.py`, `src/lib/chunk/common.py`,
`src/lib/chunk/schema.py`) and proofs of the specification claims about it.

Python `int` is modelled as `ℤ`, Python `float` values that the code only
compares for equality are modelled as `ℚ`, byte strings as `List ℕ`
(each element a byte value), and raised exceptions as `Except` errors.
-/

namespace Mull

/-! ## `src/lib/chunk/base.py` : `RawChunk` -/

/-- `RawChunk` from `src/lib/chunk/base.py`: an unparsed chunk without
payload storage.  Field for field the Python dataclass. -/
structure RawChunk where
  identifier : String
  reported_payload_size : ℤ
  actual_payload_size : ℤ
  start_offset : ℤ
  payload_offset : ℤ
  padding_size : ℤ
  is_aligned : Bool
  breakpoint : Bool
  deriving DecidableEq, Repr

/-- `RawChunk.end_offset`: `payload_offset + actual_payload_size + padding_size`. -/
def RawChunk.end_offset (c : RawChunk) : ℤ :=
  c.payload_offset + c.actual_payload_size + c.padding_size

/-- `RawChunk.size_mismatch` as written in the code:
`return self.reported_payload_size == self.actual_payload_size`. -/
def RawChunk.size_mismatch (c : RawChunk) : Bool :=
  c.reported_payload_size == c.actual_payload_size

/-- `RawChunk.hidden_data` as written in the code:
`return self.actual_payload_size > self.reported_payload_size`. -/
def RawChunk.hidden_data (c : RawChunk) : Bool :=
  c.reported_payload_size < c.actual_payload_size

/-! ## `src/lib/stream.py` : `Stream`

The underlying binary source opened by `Stream.__init__` is modelled as the
immutable byte list `data`; the OS file cursor and `Stream._position` move in
lock step in the code (`seek` assigns the value returned by the underlying
seek, `read` advances by the number of bytes the underlying read returned),
so a single `position` field represents both. -/

/-- The state of a `Stream`: the bytes of the source and the cursor. -/
structure Stream where
  data : List ℕ
  position : ℤ
  deriving DecidableEq, Repr

/-- `Stream._size` / `len(stream)`: computed at open time by seeking to the
end; the source is immutable, so it always equals the length of `data`. -/
def Stream.size (s : Stream) : ℤ := (s.data.length : ℤ)

/-- `Stream.__init__` over an already-normalized source: `_get_size` seeks to
the end and back to 0, and `_position` starts at 0. -/
def Stream.open (data : List ℕ) : Stream := ⟨data, 0⟩

/-- The `whence` argument of `seek`: `io.SEEK_SET`, `io.SEEK_CUR`, `io.SEEK_END`. -/
inductive Whence where
  | setStart
  | setCurrent
  | setEnd
  deriving DecidableEq, Repr

/-- Errors the underlying OS-level stream can raise. -/
inductive OSError where
  | invalidSeek
  deriving DecidableEq, Repr

/-- `Stream.seek`: `self._position = self._stream.seek(offset, whence)`.
The underlying seek resolves the target against the chosen origin, raises on
a negative target, and otherwise moves the cursor there — seeking past the
end of the source is allowed and performs no bounds check. -/
def Stream.seek (s : Stream) (offset : ℤ) (whence : Whence) :
    Except OSError Stream :=
  let target : ℤ :=
    match whence with
    | .setStart => offset
    | .setCurrent => s.position + offset
    | .setEnd => s.size + offset
  if target < 0 then .error .invalidSeek
  else .ok { s with position := target }

/-- `Stream.tell`: `return self._position`. -/
def Stream.tell (s : Stream) : ℤ := s.position

/-- `Stream.read`: `_data = self._stream.read(size); self._position += len(_data);
return _data`.  The underlying read returns `min(size, remaining)` bytes from
the cursor (all remaining bytes when `size` is negative, the Python default
`-1`) and never raises on shortfall — it silently returns fewer bytes. -/
def Stream.read (s : Stream) (size : ℤ) : List ℕ × Stream :=
  let rest := s.data.drop s.position.toNat
  let chunk := if size < 0 then rest else rest.take size.toNat
  (chunk, { s with position := s.position + chunk.length })

/-! ## `Stream._transform_source` (open-time source normalization) -/

/-- What a filesystem path resolves to. -/
inductive PathKind where
  | missing
  | regularFile (content : List ℕ)
  | directory
  deriving DecidableEq

/-- The filesystem, as `pathlib.Path.exists` / `is_file` / `open` see it. -/
structure FileSystem where
  lookup : String → PathKind

/-- `Path.exists()`. -/
def FileSystem.pathExists (fs : FileSystem) (p : String) : Bool :=
  match fs.lookup p with
  | .missing => false
  | _ => true

/-- `Path.is_file()`. -/
def FileSystem.isFile (fs : FileSystem) (p : String) : Bool :=
  match fs.lookup p with
  | .regularFile _ => true
  | _ => false

/-- The kinds of value a caller can pass to `Stream(source)`: a `str` path, a
`pathlib.Path`, a pre-opened seekable byte source (e.g. `io.BytesIO` or a file
object), or anything else. -/
inductive SourceInput where
  | pathStr (p : String)
  | pathObj (p : String)
  | byteStream (data : List ℕ)
  | other

/-- The exceptions `_transform_source` and the `open` builtin can raise:
`FileNotFoundError` (the spec's `SourceNotFound`), `TypeError` (the spec's
`UnsupportedSource`), and `IsADirectoryError` from `open(path, 'rb')` on an
existing path that is not a regular file. -/
inductive OpenErrorKind where
  | fileNotFound
  | typeError
  | isADirectory
  deriving DecidableEq

/-- `open(path, 'rb')` on a resolved path. -/
def openRb (k : PathKind) : Except OpenErrorKind (List ℕ) :=
  match k with
  | .regularFile content => .ok content
  | .directory => .error .isADirectory
  | .missing => .error .fileNotFound

/-- `Stream._transform_source`, line for line:
`isinstance(source, (str, Path))` selects the path branch;
`if not path.exists() and not path.is_file(): raise FileNotFoundError`;
then `open(path, 'rb')`; every other input raises
`TypeError(f"Unsupported source type: ...")`. -/
def transform_source (fs : FileSystem) : SourceInput → Except OpenErrorKind (List ℕ)
  | .pathStr p =>
      if ¬fs.pathExists p ∧ ¬fs.isFile p then .error .fileNotFound
      else openRb (fs.lookup p)
  | .pathObj p =>
      if ¬fs.pathExists p ∧ ¬fs.isFile p then .error .fileNotFound
      else openRb (fs.lookup p)
  | .byteStream _ => .error .typeError
  | .other => .error .typeError

/-! ## Operation sequences over an open `Stream` (for the cursor invariant) -/

/-- One public cursor operation on an open reader. -/
inductive Op where
  | tell
  | seek (offset : ℤ) (whence : Whence)
  | read (size : ℤ)

/-- Apply one operation to the stream state.  `tell` does not move the
cursor; a `seek` that raises leaves `_position` unassigned. -/
def Stream.applyOp (s : Stream) : Op → Stream
  | .tell => s
  | .seek offset whence =>
      match s.seek offset whence with
      | .ok s' => s'
      | .error _ => s
  | .read size => (s.read size).2

/-- Run a sequence of operations from a starting state. -/
def Stream.runOps (s : Stream) (ops : List Op) : Stream :=
  ops.foldl Stream.applyOp s

/-! ## Typed integer readers (`read_integer`, `read_i8` … `read_u64_le`) -/

/-- `Endianness` is the byteorder argument of `int.from_bytes`
(`'little'` or `'big'`); its defining module `src/lib/common.py` is not in
the sources, modelled from the spec's two byte orderings. -/
inductive Endianness where
  | little
  | big
  deriving DecidableEq

/-- The value of a little-endian byte sequence. -/
def bytesToNatLE : List ℕ → ℕ
  | [] => 0
  | b :: rest => b + 256 * bytesToNatLE rest

/-- `int.from_bytes(data, byteorder, signed)`: big-endian reverses the byte
order; `signed=True` reinterprets the top bit as a two's-complement sign. -/
def intFromBytes (data : List ℕ) (endian : Endianness) (signed : Bool) : ℤ :=
  let u : ℕ :=
    match endian with
    | .little => bytesToNatLE data
    | .big => bytesToNatLE data.reverse
  if signed ∧ 2 ^ (8 * data.length - 1) ≤ u ∧ 0 < data.length then
    (u : ℤ) - 2 ^ (8 * data.length)
  else u

/-- `Stream.read_integer(size, endian, signed)`:
`int.from_bytes(self.read(size), byteorder=endian, signed=signed)`.
Returns however many bytes `read` produced — it never raises. -/
def Stream.read_integer (s : Stream) (size : ℤ) (endian : Endianness)
    (signed : Bool) : ℤ × Stream :=
  let r := s.read size
  (intFromBytes r.1 endian signed, r.2)

/-- `struct.error`, raised by `struct.unpack` when the buffer length does not
match the format's size. -/
inductive StructError where
  | structError
  deriving DecidableEq

/-- `struct.unpack(fmt, self.read(n))[0]` for an integer format: unpack
demands exactly `n` bytes and decodes them with the format's endianness and
signedness (identical to `int.from_bytes` on those bytes). -/
def Stream.unpackInt (s : Stream) (n : ℤ) (endian : Endianness)
    (signed : Bool) : Except StructError (ℤ × Stream) :=
  let r := s.read n
  if (r.1.length : ℤ) = n then .ok (intFromBytes r.1 endian signed, r.2)
  else .error .structError

/-- `read_i8`: `struct.unpack("b", self.read(1))[0]`. -/
def Stream.read_i8 (s : Stream) : Except StructError (ℤ × Stream) :=
  s.unpackInt 1 .little true

/-- `read_u8`: `struct.unpack("B", self.read(1))[0]`. -/
def Stream.read_u8 (s : Stream) : Except StructError (ℤ × Stream) :=
  s.unpackInt 1 .little false

/-- `read_i16_be`: `struct.unpack(">h", self.read(2))[0]`. -/
def Stream.read_i16_be (s : Stream) : Except StructError (ℤ × Stream) :=
  s.unpackInt 2 .big true

/-- `read_i16_le`: `struct.unpack("<h", self.read(2))[0]`. -/
def Stream.read_i16_le (s : Stream) : Except StructError (ℤ × Stream) :=
  s.unpackInt 2 .little true

/-- `read_u16_be`: `struct.unpack(">H", self.read(2))[0]`. -/
def Stream.read_u16_be (s : Stream) : Except StructError (ℤ × Stream) :=
  s.unpackInt 2 .big false

/-- `read_u16_le`: `struct.unpack("<H", self.read(2))[0]`. -/
def Stream.read_u16_le (s : Stream) : Except StructError (ℤ × Stream) :=
  s.unpackInt 2 .little false

/-- `read_i32_be`: `struct.unpack(">i", self.read(4))[0]`. -/
def Stream.read_i32_be (s : Stream) : Except StructError (ℤ × Stream) :=
  s.unpackInt 4 .big true

/-- `read_i32_le`: `struct.unpack("<i", self.read(4))[0]`. -/
def Stream.read_i32_le (s : Stream) : Except StructError (ℤ × Stream) :=
  s.unpackInt 4 .little true

/-- `read_u32_be`: `struct.unpack(">I", self.read(4))[0]`. -/
def Stream.read_u32_be (s : Stream) : Except StructError (ℤ × Stream) :=
  s.unpackInt 4 .big false

/-- `read_u32_le`: `struct.unpack("<I", self.read(4))[0]`. -/
def Stream.read_u32_le (s : Stream) : Except StructError (ℤ × Stream) :=
  s.unpackInt 4 .little false

/-- `read_i64_be`: `struct.unpack(">q", self.read(8))[0]`. -/
def Stream.read_i64_be (s : Stream) : Except StructError (ℤ × Stream) :=
  s.unpackInt 8 .big true

/-- `read_i64_le`: `struct.unpack("<q", self.read(8))[0]`. -/
def Stream.read_i64_le (s : Stream) : Except StructError (ℤ × Stream) :=
  s.unpackInt 8 .little true

/-- `read_u64_be`: `struct.unpack(">Q", self.read(8))[0]`. -/
def Stream.read_u64_be (s : Stream) : Except StructError (ℤ × Stream) :=
  s.unpackInt 8 .big false

/-- `read_u64_le`: `struct.unpack("<Q", self.read(8))[0]`. -/
def Stream.read_u64_le (s : Stream) : Except StructError (ℤ × Stream) :=
  s.unpackInt 8 .little false

/-! ## Chunk Walker (spec §4.2) -/

/-- Modelled from the spec: the Chunk Walker of §4.2 is not among the source
files (only its `RawChunk` output type is).  This models one walk of a
well-formed container in trust mode.  The sequence of chunk headers the
Binary Reader yields — one `(identifier, reported payload size)` pair per
iteration — is abstracted as the input list.  Per §4.2: the cursor starts
`Positioned` at `pos`; a header read makes `payload_offset = start_offset +
header_width`; trust mode sets `actual_payload_size := reported_payload_size`;
`padding_size = (alignment − (actual_payload_size mod alignment)) mod
alignment`; `is_aligned` records whether `payload_offset` is a multiple of
the alignment unit; the chunk is emitted and the reader is seeked to
`end_offset`, where the next iteration is `Positioned`. -/
def walkTrust (headerWidth align : ℤ) : ℤ → List (String × ℤ) → List RawChunk
  | _, [] => []
  | pos, (ident, reported) :: rest =>
      let payloadOffset := pos + headerWidth
      let actual := reported
      let padding := (align - actual % align) % align
      let c : RawChunk :=
        { identifier := ident
          reported_payload_size := reported
          actual_payload_size := actual
          start_offset := pos
          payload_offset := payloadOffset
          padding_size := padding
          is_aligned := payloadOffset % align == 0
          breakpoint := false }
      c :: walkTrust headerWidth align c.end_offset rest

/-! ## `src/lib/chunk/schema.py` -/

/-- `PCMFormatChunk` (via `FormatChunk` and `Chunk`): the PCMWAVEFORMAT
record, with the inherited dataclass fields flattened in declaration order. -/
structure PCMFormatChunk where
  identifier : String
  payload_size : ℤ
  offset : ℤ
  format_tag : ℤ
  channel_count : ℤ
  sample_rate : ℤ
  byte_rate : ℤ
  block_align : ℤ
  bits_per_sample : ℤ
  deriving DecidableEq

/-- `math.ceil(b / 8)` for a Python `int` `b`: floor division of `b + 7`
by 8 (Euclidean division, since the divisor is positive). -/
def ceilDiv8 (b : ℤ) : ℤ := (b + 7).ediv 8

/-- The body of `PCMFormatChunk.valid`, keeping its `recommended` parameter:
the guard cascade exactly as written, including the `recommended`-guarded
byte-rate check. -/
def PCMFormatChunk.valid_with (recommended : Bool) (c : PCMFormatChunk) : Bool :=
  if c.format_tag ≠ 0x0001 then false
  else if c.payload_size ≠ 16 then false
  else if c.bits_per_sample ≠ 8 ∧ c.bits_per_sample ≠ 16 then false
  else if recommended = true ∧ c.byte_rate ≠ c.sample_rate * c.block_align then false
  else if c.block_align ≠ c.channel_count * ceilDiv8 c.bits_per_sample then false
  else true

/-- `PCMFormatChunk.valid` accessed as a property: Python supplies only
`self`, so `recommended` keeps its default `False`. -/
def PCMFormatChunk.valid (c : PCMFormatChunk) : Bool :=
  c.valid_with false

/-- `PVOC_KAISER_DEFAULT_BETA = 6.8` from `src/lib/chunk/common.py`. -/
def PVOC_KAISER_DEFAULT_BETA : ℚ := 6.8

/-- `PVOC_WINDOW_TYPE` from `src/lib/chunk/common.py`. -/
inductive PVOC_WINDOW_TYPE where
  | HAMMING
  | HANNING
  | KAISER
  | RECT
  | CUSTOM
  deriving DecidableEq

/-- `PVOCFormatChunk`'s own declared fields (its parent class is not defined
in the sources; `beta` reads only these fields). -/
structure PVOCFormatChunk where
  version : ℤ
  data_block_size : ℤ
  word_format : ℤ
  analysis_format : ℤ
  source_format : ℤ
  window_type : PVOC_WINDOW_TYPE
  bin_count : ℤ
  window_length : ℤ
  overlap : ℤ
  frame_align : ℤ
  analysis_rate : ℚ
  window_parameter : ℚ
  deriving DecidableEq

/-- `PVOCFormatChunk.beta`:
`PVOC_KAISER_DEFAULT_BETA if (self.window_type == PVOC_WINDOW_TYPE.KAISER
and self.window_parameter == 0.0) else 0.0`. -/
def PVOCFormatChunk.beta (c : PVOCFormatChunk) : ℚ :=
  if c.window_type = PVOC_WINDOW_TYPE.KAISER ∧ c.window_parameter = 0 then
    PVOC_KAISER_DEFAULT_BETA
  else 0

/-- `ListInfoChunk` (via `Chunk`): the `INFO` metadata record; each optional
text field is `Option String`. -/
structure ListInfoChunk where
  identifier : String
  payload_size : ℤ
  offset : ℤ
  archival_location : Option String
  artist : Option String
  commissioned : Option String
  comments : Option String
  copyright : Option String
  creation_date : Option String
  cropped : Option String
  dimensions : Option String
  dots_per_inch : Option String
  engineer : Option String
  genre : Option String
  keywords : Option String
  lightness : Option String
  medium : Option String
  name : Option String
  palette : Option String
  product : Option String
  subject : Option String
  software : Option String
  source : Option String
  source_form : Option String
  technician : Option String
  deriving DecidableEq

/-- `ListInfoChunk.client`: `return self.commissioned`. -/
def ListInfoChunk.client (c : ListInfoChunk) : Option String := c.commissioned

/-- `ListInfoChunk.title`: `return self.name`. -/
def ListInfoChunk.title (c : ListInfoChunk) : Option String := c.name

/-- `ListInfoChunk.album`: `return self.product`. -/
def ListInfoChunk.album (c : ListInfoChunk) : Option String := c.product

/-! ## Concrete instances used to exercise the definitions -/

/-- A filesystem with no entries. -/
def emptyFS : FileSystem := ⟨fun _ => .missing⟩

/-- An eight-byte source, enough for every fixed-width integer reader. -/
def streamEight : Stream := Stream.open [1, 2, 3, 4, 5, 6, 7, 8]

/-- A `LIST INFO` record with a few populated fields. -/
def sampleInfo : ListInfoChunk :=
  { identifier := "INFO", payload_size := 64, offset := 12
    archival_location := none, artist := some "Michaelangelo"
    commissioned := some "Pope Julian II", comments := none, copyright := none
    creation_date := some "1553-05-03", cropped := none, dimensions := none
    dots_per_inch := none, engineer := none, genre := none, keywords := none
    lightness := none, medium := none, name := some "Seattle From Above"
    palette := none, product := some "Encyclopedia of PNW Geography"
    subject := none, software := none, source := none, source_form := none
    technician := none }

/-- Same `commissioned`, `name` and `product` as `sampleInfo`, every other
field different. -/
def sampleInfoTwo : ListInfoChunk :=
  { identifier := "LIST", payload_size := 128, offset := 40
    archival_location := some "Trey Research", artist := none
    commissioned := some "Pope Julian II", comments := some "A comment."
    copyright := some "Copyright 1991.", creation_date := none
    cropped := some "lower right corner", dimensions := some "8.5 in h"
    dots_per_inch := some "300", engineer := some "Smith, John"
    genre := some "landscape", keywords := some "Seattle; aerial"
    lightness := some "low", medium := some "computer image"
    name := some "Seattle From Above", palette := some "256"
    product := some "Encyclopedia of PNW Geography", subject := some "Aerial"
    software := some "WaveEdit", source := some "Trey Research"
    source_form := some "slide", technician := some "Adams, Joe" }

/-- A PVOC-EX format record using the Kaiser window with the parameter left
at its `0.0` default. -/
def pvocKaiserDefault : PVOCFormatChunk :=
  { version := 1, data_block_size := 32, word_format := 3, analysis_format := 0
    source_format := 1, window_type := .KAISER, bin_count := 513
    window_length := 1024, overlap := 256, frame_align := 4104
    analysis_rate := 172, window_parameter := 0 }

/-- The same record with an explicit nonzero Kaiser window parameter. -/
def pvocKaiserCustom : PVOCFormatChunk :=
  { pvocKaiserDefault with window_parameter := 5 }

/-- The same record with a Hamming window. -/
def pvocHamming : PVOCFormatChunk :=
  { pvocKaiserDefault with window_type := .HAMMING }

/-! ## Helper lemmas -/

/-- `read` returns `min n remaining` bytes (for a nonnegative request from a
nonnegative cursor). -/
theorem Stream.read_length (s : Stream) (n : ℤ) (h0 : 0 ≤ s.position)
    (hn : 0 ≤ n) :
    (((s.read n).1.length : ℤ)) = min n (max (s.size - s.position) 0) := by
  simp only [Stream.read, Stream.size, if_neg (not_lt.mpr hn),
    List.length_take, List.length_drop]
  omega

/-- `read` leaves the source untouched and advances the cursor by the number
of bytes returned. -/
theorem Stream.read_snd (s : Stream) (n : ℤ) :
    (s.read n).2 = ⟨s.data, s.position + (s.read n).1.length⟩ := rfl

/-- A read that fits entirely inside the source returns exactly the
requested number of bytes. -/
theorem Stream.read_length_exact (s : Stream) (n : ℤ) (h0 : 0 ≤ s.position)
    (hn : 0 ≤ n) (h : s.position + n ≤ s.size) :
    ((s.read n).1.length : ℤ) = n := by
  rw [Stream.read_length s n h0 hn]
  omega

/-- When the requested bytes fit, `unpackInt` succeeds and agrees with
`read_integer` at the same width, endianness and signedness. -/
theorem Stream.unpackInt_eq_read_integer (s : Stream) (n : ℤ)
    (endian : Endianness) (signed : Bool) (h0 : 0 ≤ s.position) (hn : 0 ≤ n)
    (h : s.position + n ≤ s.size) :
    s.unpackInt n endian signed = .ok (s.read_integer n endian signed) := by
  have hl := s.read_length_exact n h0 hn h
  simp only [Stream.unpackInt, Stream.read_integer, if_pos hl]

/-- `applyOp` never makes the cursor negative: `tell` does not move it,
a `seek` either raises (cursor unchanged) or lands on a checked nonnegative
target, and `read` only advances. -/
theorem Stream.applyOp_position_nonneg (s : Stream) (op : Op)
    (h : 0 ≤ s.position) : 0 ≤ (s.applyOp op).position := by
  cases op with
  | tell => exact h
  | seek offset whence =>
      simp only [Stream.applyOp, Stream.seek]
      split_ifs with ht
      · exact h
      · exact le_of_not_lt ht
  | read size =>
      show 0 ≤ ((s.read size).2).position
      rw [Stream.read_snd]
      show 0 ≤ s.position + ((s.read size).1.length : ℤ)
      have := Int.natCast_nonneg ((s.read size).1.length)
      omega

/-- The cursor is nonnegative after any operation sequence from a state with
a nonnegative cursor. -/
theorem Stream.runOps_position_nonneg (ops : List Op) :
    ∀ s : Stream, 0 ≤ s.position → 0 ≤ (Stream.runOps s ops).position := by
  induction ops with
  | nil => exact fun s h => h
  | cons op rest ih => exact fun s h => ih _ (s.applyOp_position_nonneg op h)

/-- `read` cannot move the cursor past the end of the source. -/
theorem Stream.read_position_le (s : Stream) (n : ℤ) (h0 : 0 ≤ s.position)
    (h1 : s.position ≤ s.size) : (s.read n).2.position ≤ s.size := by
  rw [Stream.read_snd]
  have hlen : (s.read n).1.length ≤ s.data.length - s.position.toNat := by
    rcases lt_or_le n 0 with hn | hn
    · simp [Stream.read, if_pos hn]
    · simp only [Stream.read, if_neg (not_lt.mpr hn), List.length_take,
        List.length_drop]
      omega
  simp only [Stream.size] at h1 ⊢
  omega

/-! ## Claim C1 -/

/-- C1 (claim: `size_mismatch` is true iff `reported_payload_size ≠
actual_payload_size`).  The code computes the opposite: on a clean chunk
whose reported and actual payload sizes are both 16 the flag is `true`, and
on a chunk whose sizes are 16 and 20 the flag is `false`. -/
theorem C1_size_mismatch_inverted :
    RawChunk.size_mismatch ⟨"fmt ", 16, 16, 12, 20, 0, true, false⟩ = true ∧
    RawChunk.size_mismatch ⟨"fmt ", 16, 20, 12, 20, 0, true, false⟩ = false := by
  decide

/-! ## Claim C2 -/

/-- C2 (claim: `read(n)` fails with `TruncatedRead` whenever fewer than `n`
bytes remain, in particular on a zero-length source).  On a reader opened
over a zero-length source, `read(1)` does not fail: it silently returns zero
bytes and leaves the state unchanged. -/
theorem C2_read_silently_truncates :
    ((Stream.open []).read 1).1.length = 0 ∧
    ((Stream.open []).read 1).2 = Stream.open [] := by
  decide

/-- C2 amended: `read(n)` never fails on a shortfall — it returns
`min n (max (size − position) 0)` bytes (fewer than `n` when fewer remain),
advances the cursor by the number of bytes actually read, and leaves the
source bytes unchanged. -/
theorem C2_read_returns_available (s : Stream) (n : ℤ) (h0 : 0 ≤ s.position)
    (hn : 0 ≤ n) :
    ((s.read n).1.length : ℤ) = min n (max (s.size - s.position) 0) ∧
    (s.read n).2.position = s.position + (s.read n).1.length ∧
    (s.read n).2.data = s.data :=
  ⟨s.read_length n h0 hn, rfl, rfl⟩

/-- C2 amended, at a two-byte source asked for five bytes. -/
theorem C2_read_returns_available_witness :
    (((Stream.open [7, 7]).read 5).1.length : ℤ) =
      min 5 (max ((Stream.open [7, 7]).size - (Stream.open [7, 7]).position) 0) ∧
    ((Stream.open [7, 7]).read 5).2.position =
      (Stream.open [7, 7]).position + (((Stream.open [7, 7]).read 5).1.length : ℤ) ∧
    ((Stream.open [7, 7]).read 5).2.data = (Stream.open [7, 7]).data :=
  C2_read_returns_available (Stream.open [7, 7]) 5 (by decide) (by decide)

/-! ## Claim C3 -/

/-- C3 (claim: opening accepts both path-like inputs and pre-opened seekable
byte sources, with `UnsupportedSource` only for inputs that are neither).
A pre-opened seekable byte source is rejected with the unsupported-source
error (`TypeError`). -/
theorem C3_byte_stream_rejected :
    transform_source emptyFS (SourceInput.byteStream [0, 1]) =
      .error OpenErrorKind.typeError := rfl

/-- C3 amended: opening accepts only path-like inputs (`str` or `Path`);
a path that does not exist fails with `SourceNotFound` (`FileNotFoundError`),
an existing path that is not a regular file fails with a different error
(`IsADirectoryError`, not `SourceNotFound`), and every non-path input —
including a pre-opened seekable byte source — fails with `UnsupportedSource`
(`TypeError`). -/
theorem C3_transform_source_cases (fs : FileSystem) :
    (∀ p : String, transform_source fs (SourceInput.pathStr p) =
      match fs.lookup p with
      | PathKind.missing => .error OpenErrorKind.fileNotFound
      | PathKind.regularFile content => .ok content
      | PathKind.directory => .error OpenErrorKind.isADirectory) ∧
    (∀ p : String, transform_source fs (SourceInput.pathObj p) =
      match fs.lookup p with
      | PathKind.missing => .error OpenErrorKind.fileNotFound
      | PathKind.regularFile content => .ok content
      | PathKind.directory => .error OpenErrorKind.isADirectory) ∧
    (∀ d : List ℕ, transform_source fs (SourceInput.byteStream d) =
      .error OpenErrorKind.typeError) ∧
    transform_source fs SourceInput.other = .error OpenErrorKind.typeError := by
  refine ⟨fun p => ?_, fun p => ?_, fun d => rfl, rfl⟩ <;>
    cases hfs : fs.lookup p <;>
      simp [transform_source, FileSystem.pathExists, FileSystem.isFile, openRb, hfs]

/-! ## Claim C5 -/

/-- C5 (claim: `0 ≤ position ≤ size` holds after every sequence of `tell`,
`seek` and `read`).  A single unchecked seek past the end violates the upper
bound: on a zero-length source, `seek(5, start)` leaves `position = 5 > 0 =
size`. -/
theorem C5_seek_beyond_size :
    ¬((Stream.runOps (Stream.open []) [Op.seek 5 Whence.setStart]).position ≤
        (Stream.runOps (Stream.open []) [Op.seek 5 Whence.setStart]).size) := by
  decide

/-- C5 amended: `open` leaves the cursor at 0; `0 ≤ position` holds after
every sequence of `tell`, `seek` and `read`; and `read` preserves
`position ≤ size` — but `seek` performs no bounds pre-check, so it can move
the cursor beyond `size`. -/
theorem C5_position_bounds (data : List ℕ) (ops : List Op) :
    (Stream.open data).position = 0 ∧
    0 ≤ (Stream.runOps (Stream.open data) ops).position ∧
    (∀ s : Stream, ∀ n : ℤ, 0 ≤ s.position → s.position ≤ s.size →
      (s.read n).2.position ≤ s.size) :=
  ⟨rfl, Stream.runOps_position_nonneg ops (Stream.open data) le_rfl,
   fun s n h0 h1 => s.read_position_le n h0 h1⟩

/-- C5 amended, at a two-byte source: after a one-byte read the cursor is
nonnegative, and an oversized read from a valid cursor stays within bounds. -/
theorem C5_position_bounds_witness :
    (Stream.open [3, 3]).position = 0 ∧
    0 ≤ (Stream.runOps (Stream.open [3, 3]) [Op.read 1]).position ∧
    ((Stream.open [3, 3]).read 5).2.position ≤ (Stream.open [3, 3]).size :=
  ⟨(C5_position_bounds [3, 3] [Op.read 1]).1,
   (C5_position_bounds [3, 3] [Op.read 1]).2.1,
   (C5_position_bounds [3, 3] [Op.read 1]).2.2 (Stream.open [3, 3]) 5
     (by decide) (by decide)⟩

/-! ## Claim C6 -/

/-- C6: for every `RawChunk`, `hidden_data` is true iff
`actual_payload_size` is strictly greater than `reported_payload_size`. -/
theorem C6_hidden_data_iff (c : RawChunk) :
    c.hidden_data = true ↔ c.actual_payload_size > c.reported_payload_size := by
  simp [RawChunk.hidden_data]

/-! ## Claim C4 -/

/-- C4: for every well-formed container, the walk emits a finite sequence of
`RawChunk`s in which the `end_offset` of chunk `i` equals the `start_offset`
of chunk `i + 1` — the chunks tile the container with no gaps and no
overlaps, for any header width, alignment unit and starting offset. -/
theorem C4_walk_chunks_tile (hw align pos : ℤ) (headers : List (String × ℤ)) :
    List.Chain' (fun a b => a.end_offset = b.start_offset)
      (walkTrust hw align pos headers) := by
  induction headers generalizing pos with
  | nil => simp [walkTrust]
  | cons hd rest ih =>
      obtain ⟨i, r⟩ := hd
      cases rest with
      | nil => simp [walkTrust]
      | cons hd2 t =>
          obtain ⟨i2, r2⟩ := hd2
          simp only [walkTrust]
          exact List.chain'_cons.mpr ⟨rfl, ih _⟩

/-! ## Claim C7 -/

/-- C7: whenever enough bytes remain, each fixed-width integer reader returns
the same value and the same final cursor as the generic `read_integer`
invoked with the corresponding byte count, endianness and signedness; each
typed reader advances the cursor only through `read` and performs no seeking
of its own. -/
theorem C7_typed_readers_match_read_integer (s : Stream) (h0 : 0 ≤ s.position) :
    (s.position + 1 ≤ s.size →
      s.read_i8 = .ok (s.read_integer 1 .little true) ∧
      s.read_u8 = .ok (s.read_integer 1 .little false)) ∧
    (s.position + 2 ≤ s.size →
      s.read_i16_be = .ok (s.read_integer 2 .big true) ∧
      s.read_i16_le = .ok (s.read_integer 2 .little true) ∧
      s.read_u16_be = .ok (s.read_integer 2 .big false) ∧
      s.read_u16_le = .ok (s.read_integer 2 .little false)) ∧
    (s.position + 4 ≤ s.size →
      s.read_i32_be = .ok (s.read_integer 4 .big true) ∧
      s.read_i32_le = .ok (s.read_integer 4 .little true) ∧
      s.read_u32_be = .ok (s.read_integer 4 .big false) ∧
      s.read_u32_le = .ok (s.read_integer 4 .little false)) ∧
    (s.position + 8 ≤ s.size →
      s.read_i64_be = .ok (s.read_integer 8 .big true) ∧
      s.read_i64_le = .ok (s.read_integer 8 .little true) ∧
      s.read_u64_be = .ok (s.read_integer 8 .big false) ∧
      s.read_u64_le = .ok (s.read_integer 8 .little false)) :=
  ⟨fun h => ⟨s.unpackInt_eq_read_integer 1 .little true h0 (by norm_num) h,
     s.unpackInt_eq_read_integer 1 .little false h0 (by norm_num) h⟩,
   fun h => ⟨s.unpackInt_eq_read_integer 2 .big true h0 (by norm_num) h,
     s.unpackInt_eq_read_integer 2 .little true h0 (by norm_num) h,
     s.unpackInt_eq_read_integer 2 .big false h0 (by norm_num) h,
     s.unpackInt_eq_read_integer 2 .little false h0 (by norm_num) h⟩,
   fun h => ⟨s.unpackInt_eq_read_integer 4 .big true h0 (by norm_num) h,
     s.unpackInt_eq_read_integer 4 .little true h0 (by norm_num) h,
     s.unpackInt_eq_read_integer 4 .big false h0 (by norm_num) h,
     s.unpackInt_eq_read_integer 4 .little false h0 (by norm_num) h⟩,
   fun h => ⟨s.unpackInt_eq_read_integer 8 .big true h0 (by norm_num) h,
     s.unpackInt_eq_read_integer 8 .little true h0 (by norm_num) h,
     s.unpackInt_eq_read_integer 8 .big false h0 (by norm_num) h,
     s.unpackInt_eq_read_integer 8 .little false h0 (by norm_num) h⟩⟩

/-- C7 at an eight-byte source, where every fixed-width reader has enough
bytes. -/
theorem C7_typed_readers_match_read_integer_witness :
    (streamEight.read_i8 = .ok (streamEight.read_integer 1 .little true) ∧
      streamEight.read_u8 = .ok (streamEight.read_integer 1 .little false)) ∧
    (streamEight.read_i16_be = .ok (streamEight.read_integer 2 .big true) ∧
      streamEight.read_i16_le = .ok (streamEight.read_integer 2 .little true) ∧
      streamEight.read_u16_be = .ok (streamEight.read_integer 2 .big false) ∧
      streamEight.read_u16_le = .ok (streamEight.read_integer 2 .little false)) ∧
    (streamEight.read_i32_be = .ok (streamEight.read_integer 4 .big true) ∧
      streamEight.read_i32_le = .ok (streamEight.read_integer 4 .little true) ∧
      streamEight.read_u32_be = .ok (streamEight.read_integer 4 .big false) ∧
      streamEight.read_u32_le = .ok (streamEight.read_integer 4 .little false)) ∧
    (streamEight.read_i64_be = .ok (streamEight.read_integer 8 .big true) ∧
      streamEight.read_i64_le = .ok (streamEight.read_integer 8 .little true) ∧
      streamEight.read_u64_be = .ok (streamEight.read_integer 8 .big false) ∧
      streamEight.read_u64_le = .ok (streamEight.read_integer 8 .little false)) :=
  ⟨(C7_typed_readers_match_read_integer streamEight (by decide)).1 (by decide),
   (C7_typed_readers_match_read_integer streamEight (by decide)).2.1 (by decide),
   (C7_typed_readers_match_read_integer streamEight (by decide)).2.2.1 (by decide),
   (C7_typed_readers_match_read_integer streamEight (by decide)).2.2.2 (by decide)⟩

/-! ## Claim C8 -/

/-- C8: `valid` on a `PCMFormatChunk` holds iff `format_tag = 1`,
`payload_size = 16`, `bits_per_sample ∈ {8, 16}` and `block_align =
channel_count * ceil(bits_per_sample / 8)`; it does not depend on
`byte_rate`, because the byte-rate check is guarded by the `recommended`
parameter, which stays `False` on property access. -/
theorem C8_pcm_valid_characterization (c : PCMFormatChunk) :
    (c.valid = true ↔
      (c.format_tag = 1 ∧ c.payload_size = 16 ∧
        (c.bits_per_sample = 8 ∨ c.bits_per_sample = 16) ∧
        c.block_align = c.channel_count * ceilDiv8 c.bits_per_sample)) ∧
    (∀ br : ℤ, PCMFormatChunk.valid { c with byte_rate := br } = c.valid) := by
  constructor
  · simp only [PCMFormatChunk.valid, PCMFormatChunk.valid_with]
    split_ifs with h1 h2 h3 h4 h5 <;> simp_all
    tauto
  · intro br
    rfl

/-! ## Claim C9 -/

/-- C9: `beta` equals the Kaiser default `6.8` exactly when the window type
is `KAISER` and the stored window parameter is `0.0`; in every other case —
including a Kaiser window with a nonzero parameter — `beta` is `0.0`, and a
nonzero stored parameter is never returned. -/
theorem C9_beta_kaiser_default (c : PVOCFormatChunk) :
    (c.beta = 6.8 ↔
      c.window_type = PVOC_WINDOW_TYPE.KAISER ∧ c.window_parameter = 0) ∧
    (c.window_type = PVOC_WINDOW_TYPE.KAISER → c.window_parameter ≠ 0 →
      c.beta = 0 ∧ c.beta ≠ c.window_parameter) ∧
    (c.window_type ≠ PVOC_WINDOW_TYPE.KAISER → c.beta = 0) := by
  by_cases hk : c.window_type = PVOC_WINDOW_TYPE.KAISER ∧ c.window_parameter = 0
  · have hb : c.beta = 6.8 := by
      simp only [PVOCFormatChunk.beta, if_pos hk, PVOC_KAISER_DEFAULT_BETA]
    exact ⟨⟨fun _ => hk, fun _ => hb⟩, fun _ hp => absurd hk.2 hp,
      fun ht => absurd hk.1 ht⟩
  · have hb : c.beta = 0 := by
      simp only [PVOCFormatChunk.beta, if_neg hk]
    refine ⟨⟨fun h0 => ?_, fun h => absurd h hk⟩,
      fun _ hp => ⟨hb, ?_⟩, fun _ => hb⟩
    · rw [hb] at h0
      exact absurd h0 (by norm_num)
    · rw [hb]
      exact fun h => hp h.symm

/-- C9 at concrete records: the default-parameter Kaiser record yields `6.8`,
the nonzero-parameter Kaiser record yields `0` (not its stored `5`), and the
Hamming record yields `0`. -/
theorem C9_beta_kaiser_default_witness :
    pvocKaiserDefault.beta = 6.8 ∧ pvocKaiserCustom.beta = 0 ∧
    pvocKaiserCustom.beta ≠ pvocKaiserCustom.window_parameter ∧
    pvocHamming.beta = 0 :=
  ⟨(C9_beta_kaiser_default pvocKaiserDefault).1.2 ⟨rfl, rfl⟩,
   ((C9_beta_kaiser_default pvocKaiserCustom).2.1 rfl (by decide)).1,
   ((C9_beta_kaiser_default pvocKaiserCustom).2.1 rfl (by decide)).2,
   (C9_beta_kaiser_default pvocHamming).2.2 (by decide)⟩

/-! ## Claim C10 -/

/-- C10: `client`, `title` and `album` are pure aliases of `commissioned`,
`name` and `product`, and depend on no other field: any two records that
agree on the aliased field agree on the accessor. -/
theorem C10_list_info_aliases (c : ListInfoChunk) :
    (c.client = c.commissioned ∧ c.title = c.name ∧ c.album = c.product) ∧
    ∀ d : ListInfoChunk,
      (d.commissioned = c.commissioned → d.client = c.client) ∧
      (d.name = c.name → d.title = c.title) ∧
      (d.product = c.product → d.album = c.album) :=
  ⟨⟨rfl, rfl, rfl⟩, fun _ => ⟨fun h => h, fun h => h, fun h => h⟩⟩

/-- C10 at two concrete records that differ in all fields except the three
aliased ones: the accessors agree. -/
theorem C10_list_info_aliases_witness :
    sampleInfo.client = sampleInfo.commissioned ∧
    sampleInfoTwo.client = sampleInfo.client ∧
    sampleInfoTwo.title = sampleInfo.title ∧
    sampleInfoTwo.album = sampleInfo.album :=
  ⟨(C10_list_info_aliases sampleInfo).1.1,
   ((C10_list_info_aliases sampleInfo).2 sampleInfoTwo).1 rfl,
   ((C10_list_info_aliases sampleInfo).2 sampleInfoTwo).2.1 rfl,
   ((C10_list_info_aliases sampleInfo).2 sampleInfoTwo).2.2 rfl⟩

end Mull
